import Mathlib

/-!
Shallow embedding of the translation-model manager of the ML-Translation-API
repository (src/models/management.py, with the S3 directory download of
src/models/aws.py), together with theorems settling the frozen claims about
its specification.

Modelling conventions:
  - The local filesystem is a value of type `FS`: which directories exist and
    which files exist inside a directory. Directory paths are plain strings,
    exactly the strings the Python code builds (for example
    "models/downloads/en-fr" for `Path(LOCAL_MODEL_DIR) / translation_pair`).
  - Python dictionaries (the model mapping and the two caches) are association
    lists with Python dict semantics: assignment to an existing key updates it
    in place, assignment to a fresh key appends.
  - The external world (the Hugging Face conversion, the S3 object listing,
    model loading, tokenisation plus generation plus decoding) is passed in as
    oracle functions, since those effects live outside the repository.
  - Raised exceptions become `Except Err` values or an error field in a result
    record; an exception that the Python code catches is caught at the same
    place in the embedding.
  - Operations whose effects the claims count (the fetch operations) return an
    invocation count alongside their filesystem effect.
-/

namespace TranslationAPI

/-- ASCII lower-casing of one character, the fragment of Python `str.lower`
relevant to the configured pair keys. -/
def lowerChar (c : Char) : Char :=
  if 'A' ≤ c ∧ c ≤ 'Z' then Char.ofNat (c.toNat + 32) else c

/-- ASCII upper-casing of one character, the fragment of Python `str.upper`
relevant to the configured pair keys. -/
def upperChar (c : Char) : Char :=
  if 'a' ≤ c ∧ c ≤ 'z' then Char.ofNat (c.toNat - 32) else c

/-- Python `s.lower()` restricted to ASCII case mapping. -/
def pyLower (s : String) : String := ⟨s.data.map lowerChar⟩

/-- Python `s.upper()` restricted to ASCII case mapping. -/
def pyUpper (s : String) : String := ⟨s.data.map upperChar⟩

/-- The characters Python `str.strip` removes (ASCII whitespace). -/
def isPySpace (c : Char) : Bool :=
  c = ' ' || c = '\t' || c = '\n' || c = '\r' || c = '\x0b' || c = '\x0c'

/-- Python `s.strip()`: drop whitespace from both ends. -/
def pyStrip (s : String) : String :=
  ⟨((s.data.dropWhile isPySpace).reverse.dropWhile isPySpace).reverse⟩

/-- settings/config.py: AVAILABLE_TRANSLATIONS. -/
def AVAILABLE_TRANSLATIONS : List String :=
  ["en-fr", "en-es", "en-de", "de-en", "fr-es", "es-en"]

/-- settings/config.py: AVAILABLE_MODEL_STORAGE_MODES. -/
def AVAILABLE_MODEL_STORAGE_MODES : List String := ["s3", "local"]

/-- settings/config.py: LOCAL_MODEL_DIR. -/
def LOCAL_MODEL_DIR : String := "models/downloads"

/-- The directory path `Path(LOCAL_MODEL_DIR) / translation_pair` built by
management.py (lines 159, 225, 342, 409). Note that the code uses the pair
string exactly as the caller passed it, without lower-casing. -/
def modelDirOf (translation_pair : String) : String :=
  LOCAL_MODEL_DIR ++ "/" ++ translation_pair

/-- State of the local filesystem: existing directories, and existing files
keyed by directory path and file name. -/
structure FS where
  dirExists : String → Bool
  fileExists : String → String → Bool

/-- Effect of `mkdir` at a directory path. -/
def FS.mkdir (fs : FS) (d : String) : FS :=
  { fs with dirExists := fun x => if x = d then true else fs.dirExists x }

/-- Effect of creating one file inside a directory. -/
def FS.addFile (fs : FS) (d f : String) : FS :=
  { fs with fileExists := fun x y =>
      if x = d ∧ y = f then true else fs.fileExists x y }

/-- The exceptions the manager raises, named after the error taxonomy of the
specification. `invalidInputError` and `unknownPairError` are the two
ValueError raises (management.py lines 403 and 115), `artifactMissingError`
covers the FileNotFoundError raises for an absent bundle directory (lines 412
and 425), `incompleteArtifactError` is the FileNotFoundError naming missing
required files (line 447), and `keyError` is a Python KeyError from an
unguarded dictionary lookup. -/
inductive Err where
  | invalidInputError : Err
  | unknownPairError (pair : String) (available : List String) : Err
  | artifactMissingError (pair : String) : Err
  | incompleteArtifactError (missing : List String) : Err
  | keyError (key : String) : Err
deriving DecidableEq

instance {ε α : Type} [DecidableEq ε] [DecidableEq α] :
    DecidableEq (Except ε α) := fun a b =>
  match a, b with
  | .ok x, .ok y =>
    if h : x = y then isTrue (congrArg Except.ok h)
    else isFalse (fun hh => h (Except.ok.inj hh))
  | .error x, .error y =>
    if h : x = y then isTrue (congrArg Except.error h)
    else isFalse (fun hh => h (Except.error.inj hh))
  | .ok _, .error _ => isFalse (fun hh => Except.noConfusion hh)
  | .error _, .ok _ => isFalse (fun hh => Except.noConfusion hh)

/-- Generation parameters of `predict` (max_length, num_beams,
early_stopping). -/
structure GenParams where
  max_length : Int
  num_beams : Int
  early_stopping : Bool
deriving DecidableEq

/-- Python dict lookup on an association list. -/
def dictLookup {α : Type} : List (String × α) → String → Option α
  | [], _ => none
  | (k, v) :: rest, key => if k = key then some v else dictLookup rest key

/-- Python dict assignment: update the value in place when the key exists,
append otherwise. -/
def dictInsert {α : Type} (d : List (String × α)) (key : String) (v : α) :
    List (String × α) :=
  if d.any (fun p => p.1 = key) then
    d.map (fun p => if p.1 = key then (key, v) else p)
  else
    d ++ [(key, v)]

/-- State of a `TranslationModelManager` instance: the constructor-filtered
model mapping, the storage mode, the overwrite flag and the two in-memory
caches (management.py lines 69 to 80). `Model` and `Tok` are the opaque
loaded-handle types. -/
structure Manager (Model Tok : Type) where
  overwrite_existing_models : Bool
  model_mappings : List (String × String)
  model_storage_mode : String
  modelCache : List (String × Model)
  tokenizerCache : List (String × Tok)

/-- The dictionary comprehension of `__init__` (management.py lines 70 to 75):
keep only entries whose lower-cased key is a configured pair, keyed by the
lower-cased key. The isinstance guards are vacuous here since keys and values
are strings by type. -/
def initModelMappings (raw : List (String × String)) : List (String × String) :=
  raw.foldl
    (fun acc kv =>
      if AVAILABLE_TRANSLATIONS.contains (pyLower kv.1) then
        dictInsert acc (pyLower kv.1) kv.2
      else acc)
    []

/-- `_resolve_model_from_translation_pair` (management.py lines 92 to 120):
lower-case the pair, raise ValueError naming the available pairs when it is
absent from the mapping, return the mapped model name otherwise. The
isinstance guard is vacuous here since the argument is a string by type. -/
def resolveModel (model_mappings : List (String × String))
    (translation_pair : String) : Except Err String :=
  let p := pyLower translation_pair
  match dictLookup model_mappings p with
  | none => .error (.unknownPairError p (model_mappings.map Prod.fst))
  | some v => .ok v

/-- `_download_model_from_hugging_face` (management.py lines 122 to 205).
A resolution failure is caught and logged (no fetch). If the bundle directory
already exists and the overwrite flag is off, the download is skipped. The
whole try block (directory creation, conversion, saving, with any exception
caught) is the oracle `hub`, an arbitrary filesystem effect. Returns the new
filesystem and how many times the underlying fetch ran (0 or 1). -/
def download_model_from_hugging_face {Model Tok : Type}
    (m : Manager Model Tok) (hub : FS → String → FS)
    (translation_pair : String) (fs : FS) : FS × Nat :=
  match resolveModel m.model_mappings translation_pair with
  | .error _ => (fs, 0)
  | .ok _ =>
    if !m.overwrite_existing_models && fs.dirExists (modelDirOf translation_pair) then
      (fs, 0)
    else
      (hub fs translation_pair, 1)

/-- `AWSServicesManager.download_directory_from_s3` (aws.py lines 256 to 292)
for a flat bundle listing: for each object under the prefix, create the
directory `os.path.dirname(local_filepath)` (which, for a flat key, is
`local_directory` itself) and the file inside it. Note that files land under
`local_directory` as given, relative to the working directory. -/
def download_directory_from_s3 (objects : List String)
    (local_directory : String) (fs : FS) : FS :=
  objects.foldl (fun acc f => (acc.mkdir local_directory).addFile local_directory f) fs

/-- `_download_model_from_s3` (management.py lines 207 to 243). If the bundle
directory already exists and the overwrite flag is off, the download is
skipped. Otherwise the S3 listing oracle is consulted; a backend exception
(`.error`) propagates uncaught. On success the directory download runs with
`s3_prefix = expected_model_dir.name` and, notably,
`local_directory = expected_model_dir.name` - the bare pair name, not the
path under LOCAL_MODEL_DIR. Returns the new filesystem and the number of
fetch invocations. -/
def download_model_from_s3 {Model Tok : Type}
    (m : Manager Model Tok) (objects : String → Except Unit (List String))
    (translation_pair : String) (fs : FS) : Except Unit (FS × Nat) :=
  if !m.overwrite_existing_models && fs.dirExists (modelDirOf translation_pair) then
    .ok (fs, 0)
  else
    match objects translation_pair with
    | .error e => .error e
    | .ok objs => .ok (download_directory_from_s3 objs translation_pair fs, 1)

/-- Python list slicing `lst[:limit]` for a nonnegative or absent limit. -/
def sliceToLimit (l : List String) : Option Nat → List String
  | none => l
  | some n => l.take n

/-- Result of `load_api_models`: the final filesystem, the pairs for which a
fetcher was invoked (in order), and whether an uncaught exception aborted the
loop. -/
structure LoadResult where
  fs : FS
  attempts : List String
  aborted : Bool

/-- The loop body of `load_api_models` (management.py lines 299 to 306) over a
list of pairs. In local mode the Hugging Face fetcher never raises (it catches
everything), so the loop always continues; in s3 mode an uncaught backend
exception aborts the remaining iterations. -/
def loadLoop {Model Tok : Type} (m : Manager Model Tok)
    (hub : FS → String → FS) (objects : String → Except Unit (List String)) :
    List String → FS → List String → LoadResult
  | [], fs, acc => ⟨fs, acc, false⟩
  | p :: rest, fs, acc =>
    if m.model_storage_mode = "local" then
      let r := download_model_from_hugging_face m hub p fs
      loadLoop m hub objects rest r.1 (acc ++ [p])
    else if m.model_storage_mode = "s3" then
      match download_model_from_s3 m objects p fs with
      | .error _ => ⟨fs, acc ++ [p], true⟩
      | .ok (fs', _) => loadLoop m hub objects rest fs' (acc ++ [p])
    else
      loadLoop m hub objects rest fs acc

/-- `load_api_models` (management.py lines 283 to 306): iterate
`AVAILABLE_TRANSLATIONS[:model_limit]` and call the fetcher of the configured
storage mode for each pair. -/
def load_api_models {Model Tok : Type} (m : Manager Model Tok)
    (hub : FS → String → FS) (objects : String → Except Unit (List String))
    (fs : FS) (model_limit : Option Nat) : LoadResult :=
  loadLoop m hub objects (sliceToLimit AVAILABLE_TRANSLATIONS model_limit) fs []

/-- One entry of the `get_models_info` listing. The `config` field holds the
parsed config.json contents when requested, present and parseable. -/
structure ModelInfo where
  model_name : String
  file_type : String
  config : Option String
deriving DecidableEq

/-- The loop of `get_models_info` (management.py lines 340 to 359). For each
catalog pair whose bundle directory exists, the entry is built from
`self.model_mappings[translation_pair]` - an unguarded lookup that raises
KeyError (aborting the whole listing) when the pair is absent from the
filtered mapping. The oracle `jsonOf` gives the parsed config.json contents
(`none` models a parse failure, which is caught and the field omitted). -/
def modelsInfoLoop {Model Tok : Type} (m : Manager Model Tok)
    (jsonOf : String → Option String) (return_model_config : Bool) (fs : FS) :
    List String → List (String × ModelInfo) → Except Err (List (String × ModelInfo))
  | [], acc => .ok acc
  | p :: rest, acc =>
    let model_dir := modelDirOf p
    if fs.dirExists model_dir then
      match dictLookup m.model_mappings p with
      | none => .error (.keyError p)
      | some name =>
        let cfg :=
          if return_model_config && fs.fileExists model_dir "config.json" then
            jsonOf model_dir
          else none
        modelsInfoLoop m jsonOf return_model_config fs rest
          (acc ++ [(p, ⟨name, "ONNX", cfg⟩)])
    else
      modelsInfoLoop m jsonOf return_model_config fs rest acc

/-- `get_models_info` (management.py lines 308 to 359). -/
def get_models_info {Model Tok : Type} (m : Manager Model Tok)
    (jsonOf : String → Option String) (return_model_config : Bool) (fs : FS) :
    Except Err (List (String × ModelInfo)) :=
  modelsInfoLoop m jsonOf return_model_config fs AVAILABLE_TRANSLATIONS []

/-- The required ONNX file set checked on a cache miss (management.py lines
439 to 443). -/
def required_files : List String :=
  ["encoder_model.onnx", "decoder_model.onnx", "decoder_with_past_model.onnx"]

/-- Result of one `predict` call: the returned translation or the raised
exception, the manager state afterwards, the filesystem afterwards, and the
number of underlying fetch invocations performed. -/
structure PredictResult (Model Tok : Type) where
  result : Except Err String
  manager : Manager Model Tok
  fs : FS
  fetchCount : Nat

/-- The cache-or-load and generation section of `predict` (management.py lines
430 to 481). On a cache miss the required file set is verified against the
absolute bundle path (modelled by the same directory key, since `resolve()`
only absolutises the path), failing with the exact missing file list before
anything is inserted; otherwise model and tokenizer are loaded (oracles
`loadM`, `loadT`) and inserted into both caches. The handles are then read
back out of the caches and fed to the tokenize-generate-decode pipeline
(oracle `gen`). -/
def predictLoadAndGenerate {Model Tok : Type} (m : Manager Model Tok)
    (loadM : String → Model) (loadT : String → Tok)
    (gen : Model → Tok → GenParams → String → String)
    (fs : FS) (translation_pair text : String) (params : GenParams)
    (fetches : Nat) : PredictResult Model Tok :=
  let abs_model_dir := modelDirOf translation_pair
  let step : Except Err (Manager Model Tok) :=
    match dictLookup m.modelCache translation_pair with
    | none =>
      let missing_files :=
        required_files.filter (fun f => !fs.fileExists abs_model_dir f)
      if missing_files.isEmpty then
        .ok { m with
          modelCache := dictInsert m.modelCache translation_pair (loadM abs_model_dir),
          tokenizerCache := dictInsert m.tokenizerCache translation_pair (loadT abs_model_dir) }
      else
        .error (.incompleteArtifactError missing_files)
    | some _ => .ok m
  match step with
  | .error e => ⟨.error e, m, fs, fetches⟩
  | .ok m' =>
    match dictLookup m'.modelCache translation_pair,
          dictLookup m'.tokenizerCache translation_pair with
    | some mdl, some tok => ⟨.ok (gen mdl tok params text), m', fs, fetches⟩
    | _, _ => ⟨.error (.keyError translation_pair), m', fs, fetches⟩

/-- `predict` (management.py lines 361 to 481). Validation order: empty-text
check, pair resolution, bundle-directory existence (before any cache
consultation), then the cache-or-load section. When the directory is absent:
with `raise_on_missing_model` true, fail at once; with it false, run the
Hugging Face fetch once and fail if the directory is still absent. -/
def predict {Model Tok : Type} (m : Manager Model Tok)
    (hub : FS → String → FS) (loadM : String → Model) (loadT : String → Tok)
    (gen : Model → Tok → GenParams → String → String)
    (fs : FS) (translation_pair text : String) (params : GenParams)
    (raise_on_missing_model : Bool) : PredictResult Model Tok :=
  if pyStrip text = "" then ⟨.error .invalidInputError, m, fs, 0⟩
  else
    match resolveModel m.model_mappings translation_pair with
    | .error e => ⟨.error e, m, fs, 0⟩
    | .ok _ =>
      let model_dir := modelDirOf translation_pair
      if fs.dirExists model_dir then
        predictLoadAndGenerate m loadM loadT gen fs translation_pair text params 0
      else if raise_on_missing_model then
        ⟨.error (.artifactMissingError translation_pair), m, fs, 0⟩
      else
        let r := download_model_from_hugging_face m hub translation_pair fs
        if r.1.dirExists model_dir then
          predictLoadAndGenerate m loadM loadT gen r.1 translation_pair text params r.2
        else
          ⟨.error (.artifactMissingError translation_pair), m, r.1, r.2⟩

/-!
Interleaving model of the cache section of `predict` (management.py lines 431
to 460) under two concurrent callers for the same pair. The repository holds
no lock of any kind (no threading import anywhere), and the endpoint layer
serves `predict` from synchronous handlers that a server runs on a thread
pool, so two calls can interleave. Each thread performs two relevant atomic
steps: the cache membership check of line 431, and the load-plus-insert of
lines 452 to 458 (the load does I/O and releases the interpreter lock, so
another thread can run between the check and the insert).
-/

/-- Program counter of one caller inside the cache section: about to run the
membership check, about to run the load-plus-insert, or finished. -/
inductive ThreadPC where
  | check : ThreadPC
  | load : ThreadPC
  | done : ThreadPC
deriving DecidableEq

/-- Shared and per-thread state for two concurrent cache-section executions
for the same pair: which keys the model cache holds, how many underlying
load operations have run, and both program counters. -/
structure ConcState where
  cacheKeys : List String
  loadCount : Nat
  pc1 : ThreadPC
  pc2 : ThreadPC
deriving DecidableEq

/-- One atomic step of one caller: the membership check branches on the shared
cache (hit skips the load), the load step performs the underlying load and
inserts the key. -/
def threadStep (pair : String) (pc : ThreadPC) (cacheKeys : List String)
    (loadCount : Nat) : ThreadPC × List String × Nat :=
  match pc with
  | .check =>
    if cacheKeys.contains pair then (.done, cacheKeys, loadCount)
    else (.load, cacheKeys, loadCount)
  | .load => (.done, cacheKeys ++ [pair], loadCount + 1)
  | .done => (.done, cacheKeys, loadCount)

/-- Run the step of the scheduled thread (`false` schedules the first thread,
`true` the second). -/
def schedStep (pair : String) (s : ConcState) (t : Bool) : ConcState :=
  if t then
    let r := threadStep pair s.pc2 s.cacheKeys s.loadCount
    ⟨r.2.1, r.2.2, s.pc1, r.1⟩
  else
    let r := threadStep pair s.pc1 s.cacheKeys s.loadCount
    ⟨r.2.1, r.2.2, r.1, s.pc2⟩

/-- Run a whole schedule. -/
def runSched (pair : String) (sched : List Bool) (s : ConcState) : ConcState :=
  sched.foldl (schedStep pair) s

/-- Both callers at the membership check, cache cold, no loads yet. -/
def initConc : ConcState := ⟨[], 0, .check, .check⟩

/-!  Concrete fixtures used by witnesses and counterexamples. -/

/-- Empty filesystem. -/
def fs0 : FS := ⟨fun _ => false, fun _ _ => false⟩

/-- A Hugging Face conversion oracle whose attempt fails without any
filesystem effect. -/
def hub0 : FS → String → FS := fun fs _ => fs

/-- A model-loading oracle over the concrete handle type Nat. -/
def load1 : String → Nat := fun _ => 1

/-- A tokenizer-loading oracle over the concrete handle type Nat. -/
def load2 : String → Nat := fun _ => 2

/-- A generation oracle that echoes its input text. -/
def gen0 : Nat → Nat → GenParams → String → String := fun _ _ _ t => t

/-- The default generation parameters of `predict`. -/
def P0 : GenParams := ⟨512, 4, true⟩

/-- A local-mode manager mapping only the pair en-es, caches empty. -/
def M0 : Manager Nat Nat :=
  { overwrite_existing_models := false
    model_mappings := [("en-es", "Helsinki-NLP/opus-mt-en-es")]
    model_storage_mode := "local"
    modelCache := []
    tokenizerCache := [] }

/-- M0 with a loaded cache entry for en-es. -/
def M1 : Manager Nat Nat :=
  { M0 with modelCache := [("en-es", 7)], tokenizerCache := [("en-es", 3)] }

/-- An s3-mode manager mapping en-fr and en-es. -/
def MS3 : Manager Nat Nat :=
  { overwrite_existing_models := false
    model_mappings :=
      [("en-fr", "Helsinki-NLP/opus-mt-en-fr"), ("en-es", "Helsinki-NLP/opus-mt-en-es")]
    model_storage_mode := "s3"
    modelCache := []
    tokenizerCache := [] }

/-- An S3 listing oracle that finds a complete flat bundle under every
prefix. -/
def objectsOk : String → Except Unit (List String) := fun _ => .ok required_files

/-- An S3 listing oracle whose backend raises on every prefix. -/
def objectsFail : String → Except Unit (List String) := fun _ => .error ()

/-- The filesystem after the first s3-mode fetch of en-fr from `objectsOk`:
the bundle files land under the bare directory "en-fr". -/
def fsAfterS3Fetch : FS := download_directory_from_s3 required_files "en-fr" fs0

/-- A filesystem where the en-es bundle directory exists but holds no
files. -/
def fsDirOnly : FS := fs0.mkdir (modelDirOf "en-es")

/-! Helper lemmas. -/

/-- The cache-or-load section reports exactly the fetch count it was given. -/
theorem predictLoadAndGenerate_fetchCount {Model Tok : Type}
    (m : Manager Model Tok) (loadM : String → Model) (loadT : String → Tok)
    (gen : Model → Tok → GenParams → String → String) (fs : FS)
    (translation_pair text : String) (params : GenParams) (fetches : Nat) :
    (predictLoadAndGenerate m loadM loadT gen fs translation_pair text params
      fetches).fetchCount = fetches := by
  unfold predictLoadAndGenerate
  dsimp only []
  split
  · rfl
  · split <;> rfl

/-- Resolution only looks at the lower-cased pair. -/
theorem resolveModel_ext (M : List (String × String)) {a b : String}
    (h : pyLower a = pyLower b) : resolveModel M a = resolveModel M b := by
  unfold resolveModel
  rw [h]

/-- Keys after a dict assignment: the assigned key or an old key. -/
theorem mem_keys_dictInsert {α : Type} {d : List (String × α)}
    {key k : String} {v : α}
    (h : k ∈ (dictInsert d key v).map Prod.fst) :
    k = key ∨ k ∈ d.map Prod.fst := by
  unfold dictInsert at h
  split at h
  · simp only [List.map_map, List.mem_map] at h
    obtain ⟨p, hp, hpk⟩ := h
    by_cases hpe : p.1 = key
    · left
      rw [Function.comp_apply, if_pos hpe] at hpk
      exact hpk.symm
    · right
      rw [Function.comp_apply, if_neg hpe] at hpk
      exact List.mem_map.mpr ⟨p, hp, hpk⟩
  · simp only [List.map_append, List.mem_append, List.map_cons,
      List.map_nil, List.mem_singleton] at h
    rcases h with h | h
    · exact Or.inr h
    · exact Or.inl h

/-- Every key of the constructor-filtered mapping is a configured pair. -/
theorem initModelMappings_keys_aux (raw : List (String × String)) :
    ∀ acc : List (String × String),
      (∀ k, k ∈ acc.map Prod.fst → k ∈ AVAILABLE_TRANSLATIONS) →
      ∀ k, k ∈ ((raw.foldl
          (fun acc kv =>
            if AVAILABLE_TRANSLATIONS.contains (pyLower kv.1) then
              dictInsert acc (pyLower kv.1) kv.2
            else acc) acc).map Prod.fst) →
        k ∈ AVAILABLE_TRANSLATIONS := by
  induction raw with
  | nil => intro acc hacc k hk; exact hacc k hk
  | cons kv rest ih =>
    intro acc hacc k hk
    refine ih _ ?_ k hk
    intro k' hk'
    by_cases hc : AVAILABLE_TRANSLATIONS.contains (pyLower kv.1)
    · simp only [hc, if_true] at hk'
      rcases mem_keys_dictInsert hk' with h | h
      · subst h
        exact List.mem_of_elem_eq_true hc
      · exact hacc k' h
    · simp only [hc, if_false] at hk'
      exact hacc k' hk'

/-- Every key of the constructor-filtered mapping is a configured pair. -/
theorem initModelMappings_keys (raw : List (String × String)) (k : String)
    (hk : k ∈ (initModelMappings raw).map Prod.fst) :
    k ∈ AVAILABLE_TRANSLATIONS :=
  initModelMappings_keys_aux raw [] (by intro k' h; simp at h) k hk

/-- In local storage mode, the startup loop invokes the fetcher for every
listed pair in order and never aborts, because the Hugging Face fetcher
catches every failure. -/
theorem loadLoop_local_spec {Model Tok : Type} (m : Manager Model Tok)
    (hub : FS → String → FS) (objects : String → Except Unit (List String))
    (hmode : m.model_storage_mode = "local") :
    ∀ (l : List String) (fs : FS) (acc : List String),
      (loadLoop m hub objects l fs acc).attempts = acc ++ l
      ∧ (loadLoop m hub objects l fs acc).aborted = false := by
  intro l
  induction l with
  | nil => intro fs acc; simp [loadLoop]
  | cons p rest ih =>
    intro fs acc
    have h := ih (download_model_from_hugging_face m hub p fs).1 (acc ++ [p])
    simp only [loadLoop, hmode, if_true]
    constructor
    · rw [h.1]; simp
    · exact h.2

/-- If some catalog pair has an existing bundle directory but no entry in the
filtered mapping, the listing loop ends in a KeyError. -/
theorem modelsInfoLoop_keyError {Model Tok : Type} (m : Manager Model Tok)
    (jsonOf : String → Option String) (flag : Bool) (fs : FS) (p : String)
    (hmap : dictLookup m.model_mappings p = none)
    (hdir : fs.dirExists (modelDirOf p) = true) :
    ∀ (l : List String) (acc : List (String × ModelInfo)), p ∈ l →
      ∃ q, modelsInfoLoop m jsonOf flag fs l acc = .error (.keyError q) := by
  intro l
  induction l with
  | nil => intro acc hp; exact absurd hp (List.not_mem_nil p)
  | cons q rest ih =>
    intro acc hp
    by_cases hd : fs.dirExists (modelDirOf q)
    · cases hq : dictLookup m.model_mappings q with
      | none =>
        refine ⟨q, ?_⟩
        simp [modelsInfoLoop, hd, hq]
      | some name =>
        have hpq : p ≠ q := by
          intro h; rw [h, hq] at hmap; exact Option.noConfusion hmap
        have hpr : p ∈ rest := by
          rcases List.mem_cons.mp hp with h | h
          · exact absurd h hpq
          · exact h
        simp only [modelsInfoLoop, hd, hq, if_true]
        exact ih _ hpr
    · have hpq : p ≠ q := by
        intro h; rw [h] at hdir; exact hd hdir
      have hpr : p ∈ rest := by
        rcases List.mem_cons.mp hp with h | h
        · exact absurd h hpq
        · exact h
      simp only [modelsInfoLoop, hd, if_false, Bool.false_eq_true]
      exact ih _ hpr

/-! Claim theorems. -/

/-- C1: for a supported pair whose bundle directory is absent and non-empty
text, strict `predict` fails at once with the missing-artifact error, with no
fetch and no state change; lenient `predict` performs exactly one fetch, and
when the directory is still absent after that fetch it fails with the
missing-artifact error rather than retrying. -/
theorem c1_predict_missing_artifact_policy {Model Tok : Type}
    (m : Manager Model Tok) (hub : FS → String → FS) (loadM : String → Model)
    (loadT : String → Tok) (gen : Model → Tok → GenParams → String → String)
    (fs : FS) (translation_pair text : String) (params : GenParams)
    (name : String)
    (ht : pyStrip text ≠ "")
    (hres : dictLookup m.model_mappings (pyLower translation_pair) = some name)
    (hdir : fs.dirExists (modelDirOf translation_pair) = false) :
    predict m hub loadM loadT gen fs translation_pair text params true =
      ⟨.error (.artifactMissingError translation_pair), m, fs, 0⟩
    ∧ (predict m hub loadM loadT gen fs translation_pair text params
        false).fetchCount = 1
    ∧ ((hub fs translation_pair).dirExists (modelDirOf translation_pair) = false →
        predict m hub loadM loadT gen fs translation_pair text params false =
          ⟨.error (.artifactMissingError translation_pair), m,
            hub fs translation_pair, 1⟩) := by
  have hresolve : resolveModel m.model_mappings translation_pair = .ok name := by
    simp [resolveModel, hres]
  have hdl : download_model_from_hugging_face m hub translation_pair fs =
      (hub fs translation_pair, 1) := by
    simp [download_model_from_hugging_face, hresolve, hdir]
  refine ⟨?_, ?_, ?_⟩
  · simp [predict, ht, hresolve, hdir]
  · by_cases hd2 : (hub fs translation_pair).dirExists (modelDirOf translation_pair)
    · simp [predict, ht, hresolve, hdir, hdl, hd2, predictLoadAndGenerate_fetchCount]
    · simp [predict, ht, hresolve, hdir, hdl, hd2]
  · intro h2
    simp [predict, ht, hresolve, hdir, hdl, h2]

theorem c1_witness :
    pyStrip "hi" ≠ ""
    ∧ dictLookup M0.model_mappings (pyLower "en-es") = some "Helsinki-NLP/opus-mt-en-es"
    ∧ fs0.dirExists (modelDirOf "en-es") = false
    ∧ predict M0 hub0 load1 load2 gen0 fs0 "en-es" "hi" P0 true =
        ⟨.error (.artifactMissingError "en-es"), M0, fs0, 0⟩
    ∧ (predict M0 hub0 load1 load2 gen0 fs0 "en-es" "hi" P0 false).fetchCount = 1
    ∧ predict M0 hub0 load1 load2 gen0 fs0 "en-es" "hi" P0 false =
        ⟨.error (.artifactMissingError "en-es"), M0, hub0 fs0 "en-es", 1⟩ := by
  obtain ⟨h1, h2, h3⟩ := c1_predict_missing_artifact_policy M0 hub0 load1 load2
    gen0 fs0 "en-es" "hi" P0 "Helsinki-NLP/opus-mt-en-es"
    (by decide) (by decide) (by decide)
  exact ⟨by decide, by decide, by decide, h1, h2, h3 (by decide)⟩

/-- C2: `predict` with text that is empty after stripping fails with the
invalid-input error for every pair, parameter value and policy, before the
pair check, the artifact check or any fetch, and changes nothing. -/
theorem c2_predict_empty_text {Model Tok : Type}
    (m : Manager Model Tok) (hub : FS → String → FS) (loadM : String → Model)
    (loadT : String → Tok) (gen : Model → Tok → GenParams → String → String)
    (fs : FS) (translation_pair text : String) (params : GenParams)
    (raise_on_missing_model : Bool)
    (ht : pyStrip text = "") :
    predict m hub loadM loadT gen fs translation_pair text params
      raise_on_missing_model = ⟨.error .invalidInputError, m, fs, 0⟩ := by
  simp [predict, ht]

theorem c2_witness :
    pyStrip " " = ""
    ∧ predict M0 hub0 load1 load2 gen0 fs0 "xx-yy" " " P0 true =
        ⟨.error .invalidInputError, M0, fs0, 0⟩ :=
  ⟨by decide,
    c2_predict_empty_text M0 hub0 load1 load2 gen0 fs0 "xx-yy" " " P0 true
      (by decide)⟩

/-- C3: resolution of a key whose lower-cased form is absent from the filtered
mapping fails with the unknown-pair error naming the supported keys, and so
does `predict` with non-empty text; the manager state, in particular the
mapping, is unchanged. -/
theorem c3_unknown_pair {Model Tok : Type}
    (m : Manager Model Tok) (hub : FS → String → FS) (loadM : String → Model)
    (loadT : String → Tok) (gen : Model → Tok → GenParams → String → String)
    (fs : FS) (k text : String) (params : GenParams)
    (raise_on_missing_model : Bool)
    (hk : dictLookup m.model_mappings (pyLower k) = none)
    (ht : pyStrip text ≠ "") :
    resolveModel m.model_mappings k =
      .error (.unknownPairError (pyLower k) (m.model_mappings.map Prod.fst))
    ∧ predict m hub loadM loadT gen fs k text params raise_on_missing_model =
        ⟨.error (.unknownPairError (pyLower k) (m.model_mappings.map Prod.fst)),
          m, fs, 0⟩ := by
  have h1 : resolveModel m.model_mappings k =
      .error (.unknownPairError (pyLower k) (m.model_mappings.map Prod.fst)) := by
    simp [resolveModel, hk]
  exact ⟨h1, by simp [predict, ht, h1]⟩

theorem c3_witness :
    dictLookup M0.model_mappings (pyLower "xx-yy") = none
    ∧ pyStrip "hello" ≠ ""
    ∧ resolveModel M0.model_mappings "xx-yy" =
        .error (.unknownPairError "xx-yy" ["en-es"])
    ∧ predict M0 hub0 load1 load2 gen0 fs0 "xx-yy" "hello" P0 true =
        ⟨.error (.unknownPairError "xx-yy" ["en-es"]), M0, fs0, 0⟩ := by
  obtain ⟨h1, h2⟩ := c3_unknown_pair M0 hub0 load1 load2 gen0 fs0 "xx-yy"
    "hello" P0 true (by decide) (by decide)
  exact ⟨by decide, by decide, h1, h2⟩

/-- C4: on the cache-miss load path, a bundle directory that exists but lacks
required model or tokenizer files makes `predict` fail with the
incomplete-artifact error carrying exactly the missing file names, and no
entry is inserted into either cache (the manager is unchanged). -/
theorem c4_incomplete_bundle {Model Tok : Type}
    (m : Manager Model Tok) (hub : FS → String → FS) (loadM : String → Model)
    (loadT : String → Tok) (gen : Model → Tok → GenParams → String → String)
    (fs : FS) (translation_pair text : String) (params : GenParams)
    (raise_on_missing_model : Bool) (name : String) (missing : List String)
    (ht : pyStrip text ≠ "")
    (hres : dictLookup m.model_mappings (pyLower translation_pair) = some name)
    (hdir : fs.dirExists (modelDirOf translation_pair) = true)
    (hcache : dictLookup m.modelCache translation_pair = none)
    (hfiles : required_files.filter
        (fun f => !fs.fileExists (modelDirOf translation_pair) f) = missing)
    (hne : missing ≠ []) :
    predict m hub loadM loadT gen fs translation_pair text params
        raise_on_missing_model =
      ⟨.error (.incompleteArtifactError missing), m, fs, 0⟩ := by
  have hresolve : resolveModel m.model_mappings translation_pair = .ok name := by
    simp [resolveModel, hres]
  have hemp : missing.isEmpty = false := by
    cases missing with
    | nil => exact absurd rfl hne
    | cons a l => rfl
  simp [predict, ht, hresolve, hdir, predictLoadAndGenerate, hcache, hfiles, hemp]

theorem c4_witness :
    pyStrip "hi" ≠ ""
    ∧ dictLookup M0.model_mappings (pyLower "en-es") = some "Helsinki-NLP/opus-mt-en-es"
    ∧ fsDirOnly.dirExists (modelDirOf "en-es") = true
    ∧ dictLookup M0.modelCache "en-es" = none
    ∧ required_files.filter (fun f => !fsDirOnly.fileExists (modelDirOf "en-es") f) =
        required_files
    ∧ predict M0 hub0 load1 load2 gen0 fsDirOnly "en-es" "hi" P0 true =
        ⟨.error (.incompleteArtifactError required_files), M0, fsDirOnly, 0⟩ :=
  ⟨by decide, by decide, by decide, by decide, by decide,
    c4_incomplete_bundle M0 hub0 load1 load2 gen0 fsDirOnly "en-es" "hi" P0
      true "Helsinki-NLP/opus-mt-en-es" required_files
      (by decide) (by decide) (by decide) (by decide) (by decide) (by decide)⟩

/-- C5 counterexample: a pair whose entry is cached is not served from the
cache when its bundle directory no longer exists on disk. With the directory
absent, strict `predict` fails with the missing-artifact error and lenient
`predict` performs a fetch, while the same call with the directory present
returns the cached translation - so the outcome of a cache-hit call does
depend on the directory check, refuting the claim at this input. -/
theorem c5_counterexample :
    (predict M1 hub0 load1 load2 gen0 fs0 "en-es" "hi" P0 true).result =
      .error (.artifactMissingError "en-es")
    ∧ (predict M1 hub0 load1 load2 gen0 (fs0.mkdir (modelDirOf "en-es"))
        "en-es" "hi" P0 true).result = .ok "hi"
    ∧ (predict M1 hub0 load1 load2 gen0 fs0 "en-es" "hi" P0 false).fetchCount
        = 1 := by
  decide

/-- C5 amended: for a pair whose entry is in both caches, provided the bundle
directory still exists at call time, `predict` serves the cached handles with
no fetch, no load and no state change: the result is the generation output on
the cached entry alone, independent of the file contents on disk. (The code
checks directory existence before consulting the cache, so independence from
the directory check itself does not hold; see the counterexample.) -/
theorem c5_amended_cache_hit {Model Tok : Type}
    (m : Manager Model Tok) (hub : FS → String → FS) (loadM : String → Model)
    (loadT : String → Tok) (gen : Model → Tok → GenParams → String → String)
    (fs : FS) (translation_pair text : String) (params : GenParams)
    (raise_on_missing_model : Bool) (name : String) (mdl : Model) (tok : Tok)
    (ht : pyStrip text ≠ "")
    (hres : dictLookup m.model_mappings (pyLower translation_pair) = some name)
    (hdir : fs.dirExists (modelDirOf translation_pair) = true)
    (hm : dictLookup m.modelCache translation_pair = some mdl)
    (htk : dictLookup m.tokenizerCache translation_pair = some tok) :
    predict m hub loadM loadT gen fs translation_pair text params
        raise_on_missing_model =
      ⟨.ok (gen mdl tok params text), m, fs, 0⟩ := by
  have hresolve : resolveModel m.model_mappings translation_pair = .ok name := by
    simp [resolveModel, hres]
  simp [predict, ht, hresolve, hdir, predictLoadAndGenerate, hm, htk]

theorem c5_witness :
    pyStrip "hi" ≠ ""
    ∧ dictLookup M1.model_mappings (pyLower "en-es") = some "Helsinki-NLP/opus-mt-en-es"
    ∧ (fs0.mkdir (modelDirOf "en-es")).dirExists (modelDirOf "en-es") = true
    ∧ dictLookup M1.modelCache "en-es" = some 7
    ∧ dictLookup M1.tokenizerCache "en-es" = some 3
    ∧ predict M1 hub0 load1 load2 gen0 (fs0.mkdir (modelDirOf "en-es"))
        "en-es" "hi" P0 true = ⟨.ok "hi", M1, fs0.mkdir (modelDirOf "en-es"), 0⟩ :=
  ⟨by decide, by decide, by decide, by decide, by decide,
    c5_amended_cache_hit M1 hub0 load1 load2 gen0
      (fs0.mkdir (modelDirOf "en-es")) "en-es" "hi" P0 true
      "Helsinki-NLP/opus-mt-en-es" 7 3
      (by decide) (by decide) (by decide) (by decide) (by decide)⟩

/-- C6: evaluation of the S3 fetcher at the failing input. With the
models/downloads/en-fr bundle directory absent and a remote bundle present,
the first `_download_model_from_s3` call performs the fetch, but the download
lands under the bare directory "en-fr" (`expected_model_dir.name`), so the
expected bundle directory still does not exist afterwards and a second
consecutive call with overwrite off performs the underlying fetch again: the
fetch runs twice, not at most once. -/
theorem c6_s3_fetch_twice :
    download_model_from_s3 MS3 objectsOk "en-fr" fs0 = .ok (fsAfterS3Fetch, 1)
    ∧ fsAfterS3Fetch.dirExists "en-fr" = true
    ∧ fsAfterS3Fetch.dirExists (modelDirOf "en-fr") = false
    ∧ download_model_from_s3 MS3 objectsOk "en-fr" fsAfterS3Fetch =
        .ok (download_directory_from_s3 required_files "en-fr" fsAfterS3Fetch, 1) :=
  ⟨rfl, by decide, by decide, rfl⟩

/-- C7 counterexample: in s3 storage mode an uncaught backend error during the
first pair fetch aborts the startup loop, so with a limit of 2 only the first
catalog pair gets a fetch attempt, not the first 2. -/
theorem c7_counterexample :
    (load_api_models MS3 hub0 objectsFail fs0 (some 2)).attempts = ["en-fr"]
    ∧ (load_api_models MS3 hub0 objectsFail fs0 (some 2)).aborted = true
    ∧ sliceToLimit AVAILABLE_TRANSLATIONS (some 2) = ["en-fr", "en-es"]
    ∧ (load_api_models MS3 hub0 objectsFail fs0 (some 2)).attempts ≠
        sliceToLimit AVAILABLE_TRANSLATIONS (some 2) := by
  decide

/-- C7 amended: in local storage mode, for every limit, `load_api_models`
invokes the fetcher for exactly the first limit entries of the full configured
supported-pair list (not the caller-filtered mapping) in catalog order, and no
failure of one pair prevents the remaining attempts, since the Hugging Face
fetcher catches resolution and conversion failures. In s3 mode this isolation
does not hold: an uncaught backend error aborts the remaining fetch attempts
(see the counterexample). -/
theorem c7_amended_local_isolated {Model Tok : Type}
    (m : Manager Model Tok) (hub : FS → String → FS)
    (objects : String → Except Unit (List String)) (fs : FS)
    (model_limit : Option Nat)
    (hmode : m.model_storage_mode = "local") :
    (load_api_models m hub objects fs model_limit).attempts =
      sliceToLimit AVAILABLE_TRANSLATIONS model_limit
    ∧ (load_api_models m hub objects fs model_limit).aborted = false := by
  have h := loadLoop_local_spec m hub objects hmode
    (sliceToLimit AVAILABLE_TRANSLATIONS model_limit) fs []
  exact ⟨by rw [load_api_models, h.1]; simp, by rw [load_api_models, h.2]⟩

theorem c7_witness :
    M0.model_storage_mode = "local"
    ∧ (load_api_models M0 hub0 objectsFail fs0 (some 2)).attempts =
        ["en-fr", "en-es"]
    ∧ (load_api_models M0 hub0 objectsFail fs0 (some 2)).aborted = false := by
  obtain ⟨h1, h2⟩ := c7_amended_local_isolated M0 hub0 objectsFail fs0 (some 2)
    (by decide)
  exact ⟨by decide, by rw [h1]; decide, h2⟩

/-- C8: resolution is case-insensitive on the keys of the constructor-filtered
mapping: for every key of the filtered mapping, resolving the upper-cased key
gives the same result as resolving the key itself, and more generally any two
pairs with the same lower-cased form resolve identically. -/
theorem c8_resolve_case_insensitive (raw : List (String × String)) (k : String)
    (hk : k ∈ (initModelMappings raw).map Prod.fst) :
    resolveModel (initModelMappings raw) (pyUpper k) =
      resolveModel (initModelMappings raw) k
    ∧ ∀ k', pyLower k' = pyLower k →
        resolveModel (initModelMappings raw) k' =
          resolveModel (initModelMappings raw) k := by
  have hmem : k ∈ AVAILABLE_TRANSLATIONS := initModelMappings_keys raw k hk
  have hlu : pyLower (pyUpper k) = pyLower k := by
    simp only [AVAILABLE_TRANSLATIONS, List.mem_cons, List.mem_singleton,
      List.not_mem_nil, or_false] at hmem
    rcases hmem with h | h | h | h | h | h <;> subst h <;> decide
  exact ⟨resolveModel_ext _ hlu, fun k' h => resolveModel_ext _ h⟩

theorem c8_witness :
    "en-es" ∈ (initModelMappings [("EN-ES", "Helsinki-NLP/opus-mt-en-es")]).map Prod.fst
    ∧ resolveModel (initModelMappings [("EN-ES", "Helsinki-NLP/opus-mt-en-es")])
        (pyUpper "en-es") =
      resolveModel (initModelMappings [("EN-ES", "Helsinki-NLP/opus-mt-en-es")])
        "en-es" :=
  ⟨by decide,
    (c8_resolve_case_insensitive [("EN-ES", "Helsinki-NLP/opus-mt-en-es")]
      "en-es" (by decide)).1⟩

/-- C9: evaluation of the unsynchronized cache section at the failing
interleaving. `predict` holds no lock around the membership check of line 431
and the load-plus-insert of lines 452 to 458, so the schedule in which both
callers pass the membership check before either inserts performs the
underlying load twice; a serialized schedule of the same two callers loads
once. This contradicts the claimed exactly-one-load guarantee. -/
theorem c9_unsynchronized_double_load :
    (runSched "en-es" [false, true, false, true] initConc).loadCount = 2
    ∧ (runSched "en-es" [false, true, false, true] initConc).pc1 = .done
    ∧ (runSched "en-es" [false, true, false, true] initConc).pc2 = .done
    ∧ (runSched "en-es" [false, false, true, true] initConc).loadCount = 1 := by
  decide

/-- C10: for every manager whose filtered mapping omits a supported pair, if
that pair has an existing bundle directory then `get_models_info` raises a
KeyError from the unguarded mapping lookup instead of returning a listing. -/
theorem c10_get_models_info_keyerror {Model Tok : Type}
    (m : Manager Model Tok) (jsonOf : String → Option String)
    (return_model_config : Bool) (fs : FS) (p : String)
    (hp : p ∈ AVAILABLE_TRANSLATIONS)
    (hmap : dictLookup m.model_mappings p = none)
    (hdir : fs.dirExists (modelDirOf p) = true) :
    ∃ q, get_models_info m jsonOf return_model_config fs =
      .error (.keyError q) :=
  modelsInfoLoop_keyError m jsonOf return_model_config fs p hmap hdir
    AVAILABLE_TRANSLATIONS [] hp

theorem c10_witness :
    "en-fr" ∈ AVAILABLE_TRANSLATIONS
    ∧ dictLookup M0.model_mappings "en-fr" = none
    ∧ (fs0.mkdir (modelDirOf "en-fr")).dirExists (modelDirOf "en-fr") = true
    ∧ ∃ q, get_models_info M0 (fun _ => none) false
        (fs0.mkdir (modelDirOf "en-fr")) = .error (.keyError q) :=
  ⟨by decide, by decide, by decide,
    c10_get_models_info_keyerror M0 (fun _ => none) false
      (fs0.mkdir (modelDirOf "en-fr")) "en-fr"
      (by decide) (by decide) (by decide)⟩

end TranslationAPI
